import Mathlib

/-! Origami commons: comparator-swap primitives, shuffle constants, page rounding.

A shallow embedding of `src/Origami/commons.h`.  Macros that read and assign
the pasted slots `a##x`, `a##y`, `b##x`, `b##y` are embedded as functions from
the slot contents before the macro body to the slot contents after it.
-/

namespace Origami

/-! ## Record model -/

/-- Record `struct KeyValue { Keytype key; Valuetype value; ... }`. -/
structure KeyValue (Keytype Valuetype : Type) where
  key : Keytype
  value : Valuetype
  deriving DecidableEq, Repr

namespace KeyValue

variable {Keytype Valuetype : Type} [LinearOrder Keytype]

/-- Operator `bool operator <(const KeyValue& kv) const { return key < kv.key; }`. -/
def lt (a kv : KeyValue Keytype Valuetype) : Bool := decide (a.key < kv.key)

/-- Operator `bool operator >(const KeyValue& kv) const { return key > kv.key; }`. -/
def gt (a kv : KeyValue Keytype Valuetype) : Bool := decide (a.key > kv.key)

/-- Operator `bool operator !=(const KeyValue& kv) const { return key != kv.key; }`. -/
def ne (a kv : KeyValue Keytype Valuetype) : Bool := decide (a.key ≠ kv.key)

/-- Operator `bool operator <=(const KeyValue& kv) const { return key <= kv.key; }`. -/
def le (a kv : KeyValue Keytype Valuetype) : Bool := decide (a.key ≤ kv.key)

end KeyValue

/-! ## `MIN` / `MAX` -/

/-- The two preprocessor branches that define `MIN` and `MAX`:
`#ifndef _WIN32` selects `std::min` / `std::max`, `#else` the ternary macros. -/
inductive Target where
  | posix
  | win32
  deriving DecidableEq, Repr

/-- Standard-library `std::min(x, y)` stated with the caller's `operator<`
(here `less`): it yields `y` when `y < x` and `x` otherwise, so `x` is
yielded when the two are equivalent. -/
def stdMin {α : Type} (less : α → α → Bool) (x y : α) : α :=
  if less y x then y else x

/-- Standard-library `std::max(x, y)` stated with the caller's `operator<`
(here `less`): it yields `y` when `x < y` and `x` otherwise, so `x` is
yielded when the two are equivalent. -/
def stdMax {α : Type} (less : α → α → Bool) (x y : α) : α :=
  if less x y then y else x

/-- Macro `MIN(x, y)`: `std::min(x, y)` off Windows, `((x)<(y)?(x):(y))` on it. -/
def MIN {α : Type} (t : Target) (less : α → α → Bool) (x y : α) : α :=
  match t with
  | Target.posix => stdMin less x y
  | Target.win32 => if less x y then x else y

/-- Macro `MAX(x, y)`: `std::max(x, y)` off Windows, `((x)<(y)?(y):(x))` on it. -/
def MAX {α : Type} (t : Target) (less : α → α → Bool) (x y : α) : α :=
  match t with
  | Target.posix => stdMax less x y
  | Target.win32 => if less x y then y else x

/-! ## Comparator-swap macros -/

/-- Macro `SWAPv2(x,y)`: `const Key tmp = MIN(ax, ay); ay = MAX(ax, ay); ax = tmp;`
on scalar keys, compared with the built-in `<`.  The result is the pair of
slot contents `(ax, ay)` after the body. -/
def SWAPv2 {Key : Type} [LinearOrder Key] (t : Target) (ax ay : Key) : Key × Key :=
  let tmp := MIN t (fun p q => decide (p < q)) ax ay
  let ay1 := MAX t (fun p q => decide (p < q)) ax ay
  let ax1 := tmp
  (ax1, ay1)

/-- Alias `#define SWAP SWAPv2`. -/
def SWAP {Key : Type} [LinearOrder Key] (t : Target) (ax ay : Key) : Key × Key :=
  SWAPv2 t ax ay

/-- Macro `SWAPv3(x,y)`: `const Item tmp = MIN(ax, ay); ay = MAX(ax, ay); ax = tmp;`
on records, compared with `KeyValue::operator<`. -/
def SWAPv3 {K V : Type} [LinearOrder K] (t : Target) (ax ay : KeyValue K V) :
    KeyValue K V × KeyValue K V :=
  let tmp := MIN t KeyValue.lt ax ay
  let ay1 := MAX t KeyValue.lt ax ay
  let ax1 := tmp
  (ax1, ay1)

/-- Alias `#define SWAP2 SWAPv3`. -/
def SWAP2 {K V : Type} [LinearOrder K] (t : Target) (ax ay : KeyValue K V) :
    KeyValue K V × KeyValue K V :=
  SWAPv3 t ax ay

/-- Macro `SWAPKV(x, y)`: `first = ax.key < ay.key; vTmp = first ? ax : ay;
ay = first ? ay : ax; ax = vTmp;`. -/
def SWAPKV {K V : Type} [LinearOrder K] (ax ay : KeyValue K V) :
    KeyValue K V × KeyValue K V :=
  let first : Bool := decide (ax.key < ay.key)
  let vTmp := if first then ax else ay
  let ay1 := if first then ay else ax
  let ax1 := vTmp
  (ax1, ay1)

/-- The fixed-width integer types the header names for keys and payloads:
`typedef int64_t i64; typedef uint64_t ui64; typedef uint32_t ui;`. -/
inductive IntTy where
  | i64
  | ui64
  | ui
  deriving DecidableEq, Repr

/-- Value range of an integer type. -/
def inTy (ty : IntTy) (v : Int) : Prop :=
  match ty with
  | IntTy.i64 => -(2 ^ 63) ≤ v ∧ v < 2 ^ 63
  | IntTy.ui64 => 0 ≤ v ∧ v < 2 ^ 64
  | IntTy.ui => 0 ≤ v ∧ v < 2 ^ 32

instance (ty : IntTy) (v : Int) : Decidable (inTy ty v) := by
  cases ty <;> (unfold inTy; infer_instance)

/-- Conversion of an integer value to `int64_t` (two's complement wrap), as
happens when a value is stored in the `int64_t` temporaries `tmp`, `tmp2`. -/
def toI64 (v : Int) : Int := (v + 2 ^ 63) % 2 ^ 64 - 2 ^ 63

/-- Conversion of an integer value to an integer type, as happens when the
`int64_t` temporary is assigned to a slot of that type (`a##x = tmp`). -/
def toTy (ty : IntTy) (v : Int) : Int :=
  match ty with
  | IntTy.i64 => toI64 v
  | IntTy.ui64 => v % 2 ^ 64
  | IntTy.ui => v % 2 ^ 32

/-- Slots of the dual-array comparator: keys `ax`, `ay`, payloads `bx`, `by`. -/
structure Slots where
  ax : Int
  ay : Int
  bx : Int
  byy : Int
  deriving DecidableEq, Repr

/-- Macro `SWAPKV2(x,y)`:
`bLess = ax < ay; const int64_t tmp = bLess ? ax : ay; ay = bLess ? ay : ax;
ax = tmp; int64_t tmp2 = bLess ? bx : by; by = bLess ? by : bx; bx = tmp2;`.
The slots are the caller's: the key slots have type `kty`, the payload slots
type `pty` (field `byy` is the slot `b##y`).  The temporaries are `int64_t`,
so a value goes through `toI64` into the temporary and through `toTy` back
into the slot. -/
def SWAPKV2 (kty pty : IntTy) (s : Slots) : Slots :=
  let bLess : Bool := decide (s.ax < s.ay)
  let tmp := toI64 (if bLess then s.ax else s.ay)
  let ay1 := if bLess then s.ay else s.ax
  let ax1 := toTy kty tmp
  let tmp2 := toI64 (if bLess then s.bx else s.byy)
  let by1 := if bLess then s.byy else s.bx
  let bx1 := toTy pty tmp2
  { ax := ax1, ay := ay1, bx := bx1, byy := by1 }

/-! ## Shuffle constants -/

/-- Modelled from the spec: the macro `_MM_SHUFFLE` comes from the compiler's
`xmmintrin.h`, which is not part of this repository;
`_MM_SHUFFLE(z, y, x, w) = z<<6 | y<<4 | x<<2 | w`. -/
def _MM_SHUFFLE (z y x w : Nat) : Nat :=
  (z <<< 6) ||| (y <<< 4) ||| (x <<< 2) ||| w

/-- Constant `const int rol_const = _MM_SHUFFLE(0, 3, 2, 1);`. -/
def rol_const : Nat := _MM_SHUFFLE 0 3 2 1

/-- Constant `const int ror_const = _MM_SHUFFLE(2, 1, 0, 3);`. -/
def ror_const : Nat := _MM_SHUFFLE 2 1 0 3

/-- Constant `const int shuff_32_const = _MM_SHUFFLE(2, 3, 0, 1);`. -/
def shuff_32_const : Nat := _MM_SHUFFLE 2 3 0 1

/-- Constant `const int shuff_64_const = _MM_SHUFFLE(1, 0, 3, 2);`. -/
def shuff_64_const : Nat := _MM_SHUFFLE 1 0 3 2

/-- A register group of four lanes, lane 0 first. -/
structure Lanes4 (α : Type) where
  l0 : α
  l1 : α
  l2 : α
  l3 : α
  deriving DecidableEq, Repr

/-- Lane `i` of a group; only the two low bits of `i` are looked at. -/
def Lanes4.get {α : Type} (v : Lanes4 α) (i : Nat) : α :=
  match i % 4 with
  | 0 => v.l0
  | 1 => v.l1
  | 2 => v.l2
  | _ => v.l3

/-- Modelled from the spec: the 4-lane shuffle instruction that consumes the
constants is an intrinsic outside this repository; output lane `i` is input
lane `(imm >> 2i) & 3`. -/
def shuffle4 {α : Type} (imm : Nat) (v : Lanes4 α) : Lanes4 α :=
  { l0 := v.get ((imm >>> 0) &&& 3)
    l1 := v.get ((imm >>> 2) &&& 3)
    l2 := v.get ((imm >>> 4) &&& 3)
    l3 := v.get ((imm >>> 6) &&& 3) }

/-! ## Memory substrate -/

/-- What running a function ends in: it returns a value, or the process is
ended by `exit(code)` after the bytes `printed` went to standard output. -/
inductive Outcome (α : Type) where
  | returned (v : α)
  | exited (code : Int) (printed : List UInt8)
  deriving DecidableEq, Repr

/-- Constant `#define MAX_PRINTOUT 1024`. -/
def MAX_PRINTOUT : Nat := 1024

/-- Macro `PRINT(fmt, ...)` off Windows: `snprintf(buf_PRINT, MAX_PRINTOUT,
"%s: " fmt, __FUNCTION__, ...)` then `printf("%s", buf_PRINT)`.  The text is
the enclosing function's name, `": "` and the formatted message `msg`;
`snprintf` keeps at most `MAX_PRINTOUT - 1` bytes of it. -/
def PRINT (func msg : String) : List UInt8 :=
  ((func ++ ": " ++ msg).toUTF8.toList).take (MAX_PRINTOUT - 1)

/-- Macro `ReportError(fmt, ...)` off Windows: `PRINT(fmt, ...); exit(-1);`. -/
def ReportError {α : Type} (func msg : String) : Outcome α :=
  Outcome.exited (-1) (PRINT func msg)

/-- The null pointer. -/
def NULL : Nat := 0

/-- Width of `size_t` arithmetic: values are taken modulo `2 ^ 64`. -/
def SIZE_MOD : Nat := 2 ^ 64

/-- Bitwise complement `~v` of a 64-bit `size_t`. -/
def not64 (v : Nat) : Nat := SIZE_MOD - 1 - v % SIZE_MOD

/-- Local `const size_t page_size = 4096;` of `linux_valloc`. -/
def page_size : Nat := 4096

/-- Local `size_t aligned_sz = (sz + page_size - 1) & ~(page_size - 1);` of
`linux_valloc`, in 64-bit unsigned arithmetic. -/
def aligned_sz (sz : Nat) : Nat :=
  ((sz + page_size - 1) % SIZE_MOD) &&& not64 (page_size - 1)

/-- Function `linux_valloc(sz)`: `ptr = aligned_alloc(page_size, aligned_sz);
return ptr;`.  The C library's `aligned_alloc` is the parameter `alloc`
(alignment, size, result pointer; `NULL` on failure). -/
def linux_valloc (alloc : Nat → Nat → Nat) (sz : Nat) : Outcome Nat :=
  let ptr := alloc page_size (aligned_sz sz)
  Outcome.returned ptr

/-- Macro `#define VALLOC(sz) linux_valloc(sz)`. -/
def VALLOC (alloc : Nat → Nat → Nat) (sz : Nat) : Outcome Nat :=
  linux_valloc alloc sz

end Origami

namespace Origami

/-! ## Scalar comparator-swap -/

/-- Both definitions of `MIN` on scalars are the order's minimum. -/
theorem MIN_scalar {Key : Type} [LinearOrder Key] (t : Target) (a b : Key) :
    MIN t (fun p q => decide (p < q)) a b = min a b := by
  cases t
  · simp only [MIN, stdMin, decide_eq_true_eq]
    split_ifs with h
    · exact (min_eq_right h.le).symm
    · exact (min_eq_left (not_lt.mp h)).symm
  · simp only [MIN, decide_eq_true_eq]
    split_ifs with h
    · exact (min_eq_left h.le).symm
    · exact (min_eq_right (not_lt.mp h)).symm

/-- Both definitions of `MAX` on scalars are the order's maximum. -/
theorem MAX_scalar {Key : Type} [LinearOrder Key] (t : Target) (a b : Key) :
    MAX t (fun p q => decide (p < q)) a b = max a b := by
  cases t
  · simp only [MAX, stdMax, decide_eq_true_eq]
    split_ifs with h
    · exact (max_eq_right h.le).symm
    · exact (max_eq_left (not_lt.mp h)).symm
  · simp only [MAX, decide_eq_true_eq]
    split_ifs with h
    · exact (max_eq_right h.le).symm
    · exact (max_eq_left (not_lt.mp h)).symm

/-- The slots after `SWAPv2` in closed form. -/
theorem SWAPv2_eq {Key : Type} [LinearOrder Key] (t : Target) (a b : Key) :
    SWAPv2 t a b = (min a b, max a b) := by
  simp only [SWAPv2, MIN_scalar, MAX_scalar]

/-- C1: for every pair of scalar keys `a`, `b` of a totally ordered type and
either definition of `MIN`/`MAX`, `SWAP` (which is `SWAPv2`) applied to slots
holding `(a, b)` leaves the minimum in the first slot and the maximum in the
second. -/
theorem C1_SWAP_min_max {Key : Type} [LinearOrder Key] (t : Target) (a b : Key) :
    SWAP t a b = SWAPv2 t a b ∧
      (SWAP t a b).1 = min a b ∧ (SWAP t a b).2 = max a b := by
  refine ⟨rfl, ?_, ?_⟩ <;> simp [SWAP, SWAPv2_eq]

/-- C10: `SWAP` (which is `SWAPv2`) is idempotent: applying it to the slots it
produced leaves them as they are. -/
theorem C10_SWAP_idempotent {Key : Type} [LinearOrder Key] (t : Target) (a b : Key) :
    SWAP t (SWAP t a b).1 (SWAP t a b).2 = SWAP t a b := by
  simp only [SWAP, SWAPv2_eq]
  rw [min_eq_left (min_le_max), max_eq_right (min_le_max)]

/-! ## Record ordering operators -/

/-- C5: each ordering operator of `KeyValue` compares the keys alone, so its
result does not change when the value of either record is replaced, and two
records with equal keys are never `!=`. -/
theorem C5_operators_key_only {K V : Type} [LinearOrder K] (a b : KeyValue K V) :
    (KeyValue.lt a b = decide (a.key < b.key) ∧
      KeyValue.gt a b = decide (a.key > b.key) ∧
      KeyValue.le a b = decide (a.key ≤ b.key) ∧
      KeyValue.ne a b = decide (a.key ≠ b.key)) ∧
    (∀ v w : V,
      KeyValue.lt ⟨a.key, v⟩ ⟨b.key, w⟩ = KeyValue.lt a b ∧
      KeyValue.gt ⟨a.key, v⟩ ⟨b.key, w⟩ = KeyValue.gt a b ∧
      KeyValue.le ⟨a.key, v⟩ ⟨b.key, w⟩ = KeyValue.le a b ∧
      KeyValue.ne ⟨a.key, v⟩ ⟨b.key, w⟩ = KeyValue.ne a b) ∧
    (∀ v w : V, KeyValue.ne ⟨a.key, v⟩ ⟨a.key, w⟩ = false) := by
  refine ⟨⟨rfl, rfl, rfl, rfl⟩, fun v w => ⟨rfl, rfl, rfl, rfl⟩, fun v w => ?_⟩
  simp [KeyValue.ne]

/-! ## Record comparator-swaps -/

/-- The slots after `SWAPKV` in closed form. -/
theorem SWAPKV_eq {K V : Type} [LinearOrder K] (ax ay : KeyValue K V) :
    SWAPKV ax ay = if ax.key < ay.key then (ax, ay) else (ay, ax) := by
  by_cases h : ax.key < ay.key <;> simp [SWAPKV, h]

/-- C3: `SWAPKV` leaves the two records as they are when `ax.key < ay.key` and
exchanges them otherwise; so the slots hold exactly the two input records,
each with its own value, the low slot has the smaller key and the high slot
the larger key. -/
theorem C3_SWAPKV_pairing {K V : Type} [LinearOrder K] (ax ay : KeyValue K V) :
    SWAPKV ax ay = (if ax.key < ay.key then (ax, ay) else (ay, ax)) ∧
      [(SWAPKV ax ay).1, (SWAPKV ax ay).2].Perm [ax, ay] ∧
      (SWAPKV ax ay).1.key = min ax.key ay.key ∧
      (SWAPKV ax ay).2.key = max ax.key ay.key ∧
      ((SWAPKV ax ay).1 = ax ∨ (SWAPKV ax ay).1 = ay) := by
  refine ⟨SWAPKV_eq ax ay, ?_⟩
  rw [SWAPKV_eq]
  by_cases h : ax.key < ay.key
  · rw [if_pos h]
    exact ⟨List.Perm.refl _, (min_eq_left h.le).symm, (max_eq_right h.le).symm, Or.inl rfl⟩
  · rw [if_neg h]
    have h2 : ay.key ≤ ax.key := not_lt.mp h
    exact ⟨List.Perm.swap _ _ _, (min_eq_right h2).symm, (max_eq_left h2).symm, Or.inr rfl⟩

/-- With the ternary `MIN`/`MAX` macros, `SWAPv3` is `SWAPKV`: the records are
kept or exchanged as units. -/
theorem SWAPv3_win32_eq {K V : Type} [LinearOrder K] (ax ay : KeyValue K V) :
    SWAPv3 Target.win32 ax ay = SWAPKV ax ay := by
  by_cases h : ax.key < ay.key <;> simp [SWAPv3, SWAPKV, MIN, MAX, KeyValue.lt, h]

/-- With `std::min`/`std::max`, `SWAPv3` keeps or exchanges the records as
units whenever the two keys differ. -/
theorem SWAPv3_posix_of_ne {K V : Type} [LinearOrder K] (ax ay : KeyValue K V)
    (hne : ax.key ≠ ay.key) :
    SWAPv3 Target.posix ax ay = if ax.key < ay.key then (ax, ay) else (ay, ax) := by
  rcases lt_or_gt_of_ne hne with h | h
  · have h2 : ¬ ay.key < ax.key := not_lt.mpr h.le
    simp [SWAPv3, MIN, MAX, stdMin, stdMax, KeyValue.lt, h, h2]
  · have h2 : ¬ ax.key < ay.key := not_lt.mpr (le_of_lt h)
    have h3 : ay.key < ax.key := h
    simp [SWAPv3, MIN, MAX, stdMin, stdMax, KeyValue.lt, h2, h3]

/-- With `std::min`/`std::max`, `SWAPv3` on two records of equal key puts the
first record in both slots. -/
theorem SWAPv3_posix_of_eq {K V : Type} [LinearOrder K] (ax ay : KeyValue K V)
    (heq : ax.key = ay.key) :
    SWAPv3 Target.posix ax ay = (ax, ax) := by
  simp [SWAPv3, MIN, MAX, stdMin, stdMax, KeyValue.lt, heq]

/-- C2 at the failing input: with `std::min`/`std::max`, `SWAP2` (which is
`SWAPv3`) on the records `(1, 10)` and `(1, 20)` leaves `(1, 10)` in both
slots, so the slots are not a rearrangement of the inputs: `(1, 20)` is lost.
The ternary `MIN`/`MAX` macros and `SWAPKV` leave `(1, 20)`, `(1, 10)` there. -/
theorem C2_SWAP2_equal_keys_duplicate :
    SWAP2 Target.posix (⟨1, 10⟩ : KeyValue Int Int) ⟨1, 20⟩ = (⟨1, 10⟩, ⟨1, 10⟩) ∧
      ¬ [(SWAP2 Target.posix (⟨1, 10⟩ : KeyValue Int Int) ⟨1, 20⟩).1,
          (SWAP2 Target.posix (⟨1, 10⟩ : KeyValue Int Int) ⟨1, 20⟩).2].Perm
          [⟨1, 10⟩, ⟨1, 20⟩] ∧
      SWAP2 Target.win32 (⟨1, 10⟩ : KeyValue Int Int) ⟨1, 20⟩ = (⟨1, 20⟩, ⟨1, 10⟩) ∧
      SWAPKV (⟨1, 10⟩ : KeyValue Int Int) ⟨1, 20⟩ = (⟨1, 20⟩, ⟨1, 10⟩) := by
  refine ⟨by decide, by decide, by decide, by decide⟩

/-! ## Dual-array comparator-swap -/

/-- A value of an integer type survives the trip through an `int64_t`
temporary and back into a slot of its type. -/
theorem toTy_toI64 (ty : IntTy) (v : Int) (h : inTy ty v) : toTy ty (toI64 v) = v := by
  cases ty <;> (unfold inTy at h; simp only [toTy, toI64]; omega)

/-- C4: for keys and payloads of any of the header's integer types (64-bit
signed and unsigned included), `SWAPKV2` leaves all four slots as they are
when `ax < ay` and exchanges both the keys and the payloads otherwise, the
decision being taken on the keys alone; the low key slot then holds the
minimum and the high key slot the maximum. -/
theorem C4_SWAPKV2_pairs (kty pty : IntTy) (s : Slots)
    (hax : inTy kty s.ax) (hay : inTy kty s.ay)
    (hbx : inTy pty s.bx) (hby : inTy pty s.byy) :
    SWAPKV2 kty pty s =
        (if s.ax < s.ay then s
          else { ax := s.ay, ay := s.ax, bx := s.byy, byy := s.bx }) ∧
      (SWAPKV2 kty pty s).ax = min s.ax s.ay ∧
      (SWAPKV2 kty pty s).ay = max s.ax s.ay := by
  by_cases h : s.ax < s.ay
  · have e : SWAPKV2 kty pty s = s := by
      simp [SWAPKV2, h, toTy_toI64 _ _ hax, toTy_toI64 _ _ hbx]
    rw [if_pos h, e]
    exact ⟨rfl, (min_eq_left h.le).symm, (max_eq_right h.le).symm⟩
  · have e : SWAPKV2 kty pty s
        = { ax := s.ay, ay := s.ax, bx := s.byy, byy := s.bx } := by
      simp [SWAPKV2, h, toTy_toI64 _ _ hay, toTy_toI64 _ _ hby]
    have h2 : s.ay ≤ s.ax := not_lt.mp h
    rw [if_neg h, e]
    exact ⟨rfl, (min_eq_right h2).symm, (max_eq_left h2).symm⟩

/-- C4 at keys `[5, 2]` with payloads `[120, 121]` (the characters `x`, `y`):
the keys become `[2, 5]` and the payloads `[121, 120]`. -/
theorem C4_SWAPKV2_pairs_witness :
    inTy IntTy.i64 5 ∧ inTy IntTy.i64 2 ∧ inTy IntTy.i64 120 ∧ inTy IntTy.i64 121 ∧
      SWAPKV2 IntTy.i64 IntTy.i64 { ax := 5, ay := 2, bx := 120, byy := 121 } =
        { ax := 2, ay := 5, bx := 121, byy := 120 } :=
  ⟨by decide, by decide, by decide, by decide,
    (C4_SWAPKV2_pairs IntTy.i64 IntTy.i64 { ax := 5, ay := 2, bx := 120, byy := 121 }
      (by decide) (by decide) (by decide) (by decide)).1.trans (by decide)⟩

/-- On `uint64_t` slots holding values above the `int64_t` range, the slots
come back unchanged when the keys are already in order, and exchanged when
they are not. -/
theorem SWAPKV2_ui64_high :
    SWAPKV2 IntTy.ui64 IntTy.ui64
        { ax := 2 ^ 63 + 5, ay := 2 ^ 63 + 7, bx := 2 ^ 64 - 1, byy := 1 } =
        { ax := 2 ^ 63 + 5, ay := 2 ^ 63 + 7, bx := 2 ^ 64 - 1, byy := 1 } ∧
      SWAPKV2 IntTy.ui64 IntTy.ui64
        { ax := 2 ^ 63 + 7, ay := 2 ^ 63 + 5, bx := 1, byy := 2 ^ 64 - 1 } =
        { ax := 2 ^ 63 + 5, ay := 2 ^ 63 + 7, bx := 2 ^ 64 - 1, byy := 1 } := by
  refine ⟨by decide, by decide⟩

/-! ## Shuffle constants -/

/-- C6: under the 4-lane shuffle, `rol_const` turns `[a, b, c, d]` into
`[b, c, d, a]` and `ror_const` turns it into `[d, a, b, c]`; each undoes the
other. -/
theorem C6_rol_ror {α : Type} (a b c d : α) :
    shuffle4 rol_const (Lanes4.mk a b c d) = Lanes4.mk b c d a ∧
      shuffle4 ror_const (Lanes4.mk a b c d) = Lanes4.mk d a b c ∧
      shuffle4 ror_const (shuffle4 rol_const (Lanes4.mk a b c d)) = Lanes4.mk a b c d ∧
      shuffle4 rol_const (shuffle4 ror_const (Lanes4.mk a b c d)) = Lanes4.mk a b c d :=
  ⟨rfl, rfl, rfl, rfl⟩

/-- C7: under the 4-lane shuffle, `shuff_32_const` turns `[a, b, c, d]` into
`[b, a, d, c]` (output lane `i` is input lane `i xor 1`) and `shuff_64_const`
turns it into `[c, d, a, b]` (output lane `i` is input lane `i xor 2`). -/
theorem C7_shuff_32_64 {α : Type} (a b c d : α) :
    shuffle4 shuff_32_const (Lanes4.mk a b c d) = Lanes4.mk b a d c ∧
      shuffle4 shuff_64_const (Lanes4.mk a b c d) = Lanes4.mk c d a b ∧
      (∀ i : Fin 4, (shuffle4 shuff_32_const (Lanes4.mk a b c d)).get i.val
          = (Lanes4.mk a b c d).get (i.val ^^^ 1)) ∧
      (∀ i : Fin 4, (shuffle4 shuff_64_const (Lanes4.mk a b c d)).get i.val
          = (Lanes4.mk a b c d).get (i.val ^^^ 2)) := by
  refine ⟨rfl, rfl, ?_, ?_⟩
  · intro i
    fin_cases i <;> rfl
  · intro i
    fin_cases i <;> rfl

/-! ## Page rounding in `linux_valloc` -/

/-- Masking a 64-bit value with `~(page_size - 1)` clears its twelve low bits. -/
theorem land_not64_page (x : Nat) (hx : x < 2 ^ 64) :
    x &&& not64 (page_size - 1) = 4096 * (x / 4096) := by
  have hm : not64 (page_size - 1) = (2 ^ 52 - 1) <<< 12 := by decide
  have hr : 4096 * (x / 4096) = (x >>> 12) <<< 12 := by
    rw [Nat.shiftLeft_eq, Nat.shiftRight_eq_div_pow]
    norm_num [Nat.mul_comm]
  rw [hm, hr]
  apply Nat.eq_of_testBit_eq
  intro i
  simp only [Nat.testBit_and, Nat.testBit_shiftLeft, Nat.testBit_shiftRight,
    Nat.testBit_two_pow_sub_one]
  by_cases h12 : 12 ≤ i
  · have e : 12 + (i - 12) = i := by omega
    by_cases h64 : i < 64
    · have : i - 12 < 52 := by omega
      simp [h12, e, this]
    · have hlt : x < 2 ^ i :=
        lt_of_lt_of_le hx (Nat.pow_le_pow_right (by norm_num) (not_lt.mp h64))
      simp [h12, e, Nat.testBit_lt_two_pow hlt]
  · simp [h12]

/-- The byte count requested from the allocator, in closed form. -/
theorem aligned_sz_eq (n : Nat) :
    aligned_sz n = 4096 * (((n + 4095) % 2 ^ 64) / 4096) := by
  have h : (n + page_size - 1) % SIZE_MOD = (n + 4095) % 2 ^ 64 := by
    simp [page_size, SIZE_MOD]
  unfold aligned_sz
  rw [h]
  exact land_not64_page _ (Nat.mod_lt _ (by norm_num))

/-- C8 as stated fails at `n = 2 ^ 64 - 1`: the sum `n + 4095` wraps, the byte
count requested is `0`, which is below `n`. -/
theorem C8_aligned_sz_wraps :
    0 < 2 ^ 64 - 1 ∧ 2 ^ 64 - 1 < SIZE_MOD ∧ aligned_sz (2 ^ 64 - 1) = 0 ∧
      ¬ (2 ^ 64 - 1 ≤ aligned_sz (2 ^ 64 - 1)) := by
  refine ⟨by decide, by decide, by decide, by decide⟩

/-- C8 amended: the byte count `aligned_sz n` is a multiple of the 4096-byte
page size, and for every `n` with `n + 4095 < 2 ^ 64` (no wrap of the sum, so
every `n > 0` up to `2 ^ 64 - 4096`) it is at least `n` and less than
`n + 4096`. -/
theorem C8_aligned_sz_rounds_up (n : Nat) (hn : n + 4095 < 2 ^ 64) :
    4096 ∣ aligned_sz n ∧ n ≤ aligned_sz n ∧ aligned_sz n < n + 4096 := by
  rw [aligned_sz_eq, Nat.mod_eq_of_lt hn]
  refine ⟨Dvd.intro _ rfl, ?_, ?_⟩ <;> omega

/-- C8 amended, at `n = 4097`: two pages, 8192 bytes, are requested. -/
theorem C8_aligned_sz_rounds_up_witness :
    4097 + 4095 < 2 ^ 64 ∧
      (4096 ∣ aligned_sz 4097 ∧ 4097 ≤ aligned_sz 4097 ∧ aligned_sz 4097 < 4097 + 4096) :=
  ⟨by decide, C8_aligned_sz_rounds_up 4097 (by decide)⟩

/-- The byte count is a multiple of the page size for every request. -/
theorem aligned_sz_dvd (n : Nat) : 4096 ∣ aligned_sz n := by
  rw [aligned_sz_eq]
  exact Dvd.intro _ rfl

/-! ## Allocation failure -/

/-- C9 as stated fails: with an allocator that fails on every request,
`VALLOC 1` asks for 4096 bytes, the allocator yields `NULL`, and `VALLOC`
returns that `NULL` to its caller; it does not end the process. -/
theorem C9_VALLOC_returns_null :
    (fun _ _ => NULL) page_size (aligned_sz 1) = NULL ∧
      VALLOC (fun _ _ => NULL) 1 = Outcome.returned NULL ∧
      ¬ ∃ code printed, VALLOC (fun _ _ => NULL) 1 = Outcome.exited code printed := by
  refine ⟨rfl, rfl, ?_⟩
  rintro ⟨code, printed, h⟩
  cases h

/-- C9 amended: `VALLOC` (which is `linux_valloc`) makes no check of the
allocator's result; whenever the allocator fails on the rounded request,
`VALLOC` returns `NULL` to its caller and does not take the `ReportError`
path. -/
theorem C9_VALLOC_failure_returned (alloc : Nat → Nat → Nat) (sz : Nat)
    (hfail : alloc page_size (aligned_sz sz) = NULL) :
    VALLOC alloc sz = linux_valloc alloc sz ∧
      VALLOC alloc sz = Outcome.returned NULL ∧
      ∀ func msg, VALLOC alloc sz ≠ ReportError func msg := by
  have e : VALLOC alloc sz = Outcome.returned NULL := by
    simp only [VALLOC, linux_valloc, hfail]
  refine ⟨rfl, e, ?_⟩
  intro func msg h
  rw [e] at h
  cases h

/-- C9 amended, at an allocator that fails on every request and size 1. -/
theorem C9_VALLOC_failure_returned_witness :
    (fun _ _ => NULL) page_size (aligned_sz 1) = NULL ∧
      VALLOC (fun _ _ => NULL) 1 = Outcome.returned NULL :=
  ⟨rfl, (C9_VALLOC_failure_returned (fun _ _ => NULL) 1 rfl).2.1⟩

end Origami
